import Mathlib

/-!
Verification development for the MQTT connection controller of the
ac_remote repository.  The repository ships two variants of the same
controller module: `src/js6.js` (namespace `Js6` below) and
`src/unnamed/part_000` (namespace `P0` below).  Both are shallowly
embedded: the mutable module-level variables become fields of a state
structure, each function becomes a state transformer that additionally
records the status-change notifications it emits and the transport
requests it issues, and the external Paho transport calls
(`client.connect`, `client.subscribe`, `client.send`, ...) are recorded
as abstract requests, with a boolean oracle parameter wherever the
source wraps the call in try/catch (the oracle tells whether the call
threw).  Console logging (`_log` / `_error`) is modelled only where a
claim depends on it (the publish warning of the `P0` variant); other
log lines have no effect on state, notifications or transport traffic.
-/

/-- One invocation of the status-change callback, recorded as the
(broker, device, message) triple of the `_updateAndNotifyStatus` call
that produced it.  In `js6.js` the callback literally receives these
three arguments (line 44); in `part_000` it receives
(`'mqtt'`, broker, message) (line 58) and the host reads the device
flag through `isFullyConnected()` / `getStatus()`, as the comment at
lines 54-56 of that file explains. -/
structure Status where
  broker : Bool
  device : Bool
  msg : String
deriving DecidableEq, Repr

/-- A request issued to the external Paho transport. -/
inductive Req where
  | connectReq : Req
  | subscribeReq : String → Req
  | unsubscribeReq : String → Req
  | sendReq : String → String → Req
  | disconnectReq : Req
deriving DecidableEq, Repr

namespace Js6

/-- Topic constants of `src/js6.js`, lines 23-25. -/
def MQTT_COMMAND_TOPIC : String := "ac_remote/SANKAR_AC_BLE_MQTT/command_to_esp32"

def MQTT_STATUS_TOPIC : String := "ac_remote/SANKAR_AC_BLE_MQTT/status_from_esp32"

def MQTT_DEVICE_READY_TOPIC : String := "ac_remote/SANKAR_AC_BLE_MQTT/esp32_ready"

/-- The mutable module state of `src/js6.js`, lines 29-34.
`client` records whether `client !== null`; `watchdogArmed` records
whether `deviceReadyTimeoutId` names a pending (armed, not yet fired
and not yet cleared) timeout.  The two callback fields hold
host-supplied functions and carry no controller-visible state, so they
are not modelled. -/
structure St where
  client : Bool
  connectedToBroker : Bool
  esp32ConfirmedOnline : Bool
  watchdogArmed : Bool
deriving DecidableEq, Repr

/-- The effect of one controller operation: the new state, the
status-change notifications emitted (in order) and the transport
requests issued (in order). -/
structure Eff where
  st : St
  notes : List Status
  reqs : List Req
deriving DecidableEq, Repr

/-- `_updateAndNotifyStatus` of `src/js6.js`, lines 40-46: assigns both
flags and invokes the status callback with the same triple. -/
def updateAndNotifyStatus (broker device : Bool) (msg : String) (s : St) : Eff :=
  ⟨{ s with connectedToBroker := broker, esp32ConfirmedOnline := device },
   [⟨broker, device, msg⟩], []⟩

/-- `isBrokerConnected` of `src/js6.js`, line 186. -/
def isBrokerConnected (s : St) : Bool :=
  s.connectedToBroker

/-- `isFullyConnected` of `src/js6.js`, line 187. -/
def isFullyConnected (s : St) : Bool :=
  s.connectedToBroker && s.esp32ConfirmedOnline

/-- `init` of `src/js6.js`, lines 103-120.  `createOk` tells whether
`new Paho.Client(...)` succeeded (the constructor call is wrapped in
try/catch).  Returns the new effect and the boolean result. -/
def init (createOk : Bool) (s : St) : Eff × Bool :=
  if s.client then (⟨s, [], []⟩, true)
  else if createOk then (⟨{ s with client := true }, [], []⟩, true)
  else (⟨s, [], []⟩, false)

/-- `connect` of `src/js6.js`, lines 122-157.  The first guard returns
when `connectedToBroker` is already true; the second returns when no
client exists.  Otherwise the controller notifies "MQTT Connecting...",
issues `client.connect` (recorded as `Req.connectReq`; `connectOk`
tells whether that call threw synchronously) and, on a throw, notifies
"MQTT Connection Error". -/
def connect (connectOk : Bool) (s : St) : Eff :=
  if s.connectedToBroker then ⟨s, [], []⟩
  else if !s.client then ⟨s, [], []⟩
  else
    let e1 := updateAndNotifyStatus false false "MQTT Connecting..." s
    if connectOk then ⟨e1.st, e1.notes, [Req.connectReq]⟩
    else
      let e2 := updateAndNotifyStatus false false "MQTT Connection Error" e1.st
      ⟨e2.st, e1.notes ++ e2.notes, [Req.connectReq]⟩

/-- `disconnect` of `src/js6.js`, lines 159-168: a no-op unless a
client exists and `connectedToBroker` is true; otherwise it calls
`client.disconnect` (any throw is caught and only logged) and then
notifies "MQTT Disconnected".  Note that this variant never clears
`deviceReadyTimeoutId`, so `watchdogArmed` is left unchanged. -/
def disconnect (s : St) : Eff :=
  if !s.client || !s.connectedToBroker then ⟨s, [], []⟩
  else
    let e := updateAndNotifyStatus false false "MQTT Disconnected" s
    ⟨e.st, e.notes, [Req.disconnectReq]⟩

/-- `onConnectSuccess` of `src/js6.js`, lines 49-69: notifies
"Awaiting Device...", then inside try/catch subscribes to the status
and device-ready topics and arms the device-ready watchdog; if the
subscription block throws (`subscribeOk = false`) it calls
`disconnect()` instead (subscribe requests issued before the throw are
not tracked). -/
def onConnectSuccess (subscribeOk : Bool) (s : St) : Eff :=
  let e1 := updateAndNotifyStatus true false "Awaiting Device..." s
  if subscribeOk then
    ⟨{ e1.st with watchdogArmed := true }, e1.notes,
     [Req.subscribeReq MQTT_STATUS_TOPIC, Req.subscribeReq MQTT_DEVICE_READY_TOPIC]⟩
  else
    let e2 := disconnect e1.st
    ⟨e2.st, e1.notes ++ e2.notes, e2.reqs⟩

/-- `onConnectFailure` of `src/js6.js`, lines 71-74. -/
def onConnectFailure (s : St) : Eff :=
  updateAndNotifyStatus false false "MQTT Failed" s

/-- `onConnectionLost` of `src/js6.js`, lines 76-79.  This variant does
not clear the watchdog timer here. -/
def onConnectionLost (s : St) : Eff :=
  updateAndNotifyStatus false false "MQTT Disconnected" s

/-- `onMessageArrived` of `src/js6.js`, lines 81-100.  On the
device-ready topic, a payload exactly equal to "online" clears the
watchdog and notifies (true, true, "MQTT Device Online"); any other
payload notifies (true, false, "Device Offline") and leaves the
watchdog timer untouched.  On the status topic the payload is
forwarded to the host data callback, which changes no controller
state. -/
def onMessageArrived (topic payload : String) (s : St) : Eff :=
  if topic = MQTT_DEVICE_READY_TOPIC then
    if payload = "online" then
      updateAndNotifyStatus true true "MQTT Device Online" { s with watchdogArmed := false }
    else
      updateAndNotifyStatus true false "Device Offline" s
  else ⟨s, [], []⟩

/-- The body of the `setTimeout` callback armed in `onConnectSuccess`
of `src/js6.js`, lines 60-63: it notifies (true, false,
"Device Offline") unconditionally (this variant has no
still-unconfirmed guard). -/
def deviceReadyTimeoutHandler (s : St) : Eff :=
  updateAndNotifyStatus true false "Device Offline" s

/-- `publish` of `src/js6.js`, lines 170-184: refuses (returns false,
no transport traffic, no state change) unless `isFullyConnected()`;
otherwise sends exactly one message to the command topic and returns
whether `client.send` succeeded (`sendOk`). -/
def publish (sendOk : Bool) (payload : String) (s : St) : Eff × Bool :=
  if !isFullyConnected s then (⟨s, [], []⟩, false)
  else (⟨s, [], [Req.sendReq MQTT_COMMAND_TOPIC payload]⟩, sendOk)

/-- `forceDeviceOnlineConfirmation` of `src/js6.js`, lines 189-195:
when broker-connected and the device unconfirmed, clears the watchdog
and notifies (true, true, "MQTT Device Online"); otherwise does
nothing. -/
def forceDeviceOnlineConfirmation (s : St) : Eff :=
  if isBrokerConnected s && !s.esp32ConfirmedOnline then
    updateAndNotifyStatus true true "MQTT Device Online" { s with watchdogArmed := false }
  else ⟨s, [], []⟩

/-- The events the controller of `src/js6.js` reacts to: the public
API calls and the transport/timer callbacks, each carrying the oracle
and payload parameters of the corresponding operation. -/
inductive Ev where
  | evInit : Bool → Ev
  | evConnect : Bool → Ev
  | evDisconnect : Ev
  | evPublish : Bool → String → Ev
  | evConnectSuccess : Bool → Ev
  | evConnectFailure : Ev
  | evConnectionLost : Ev
  | evMessage : String → String → Ev
  | evWatchdogFire : Ev
  | evForce : Ev

/-- One transition of the `src/js6.js` controller: dispatch the event
to the embedded operation and keep the resulting state.  A watchdog
fire only happens while the timer is armed, and the fired single-shot
timer is spent afterwards. -/
def step (e : Ev) (s : St) : St :=
  match e with
  | Ev.evInit ok => (init ok s).1.st
  | Ev.evConnect ok => (connect ok s).st
  | Ev.evDisconnect => (disconnect s).st
  | Ev.evPublish ok p => (publish ok p s).1.st
  | Ev.evConnectSuccess ok => (onConnectSuccess ok s).st
  | Ev.evConnectFailure => (onConnectFailure s).st
  | Ev.evConnectionLost => (onConnectionLost s).st
  | Ev.evMessage t p => (onMessageArrived t p s).st
  | Ev.evWatchdogFire =>
      if s.watchdogArmed then { (deviceReadyTimeoutHandler s).st with watchdogArmed := false }
      else s
  | Ev.evForce => (forceDeviceOnlineConfirmation s).st

/-- The state of the freshly loaded module, `src/js6.js` lines 29-34:
no client, both flags false, no pending timer. -/
def initialSt : St :=
  ⟨false, false, false, false⟩

/-- The states the `src/js6.js` controller can reach from module load
under any sequence of events. -/
inductive Reachable : St → Prop where
  | base : Reachable initialSt
  | next (e : Ev) {s : St} : Reachable s → Reachable (step e s)

/-- The flag invariant: the device-confirmed flag is never set while
the broker flag is clear. -/
def FlagInv (s : St) : Prop :=
  s.esp32ConfirmedOnline = true → s.connectedToBroker = true

end Js6

namespace P0

/-- Topic constants of `src/unnamed/part_000`, lines 30-33 (built from
the base topic template string). -/
def MQTT_BASE_TOPIC : String := "ac_remote/SANKAR_AC_BLE_MQTT"

def MQTT_COMMAND_TOPIC : String := MQTT_BASE_TOPIC ++ "/command_to_esp32"

def MQTT_STATUS_TOPIC : String := MQTT_BASE_TOPIC ++ "/status_from_esp32"

def MQTT_ESP32_READY_TOPIC : String := MQTT_BASE_TOPIC ++ "/esp32_ready"

/-- The mutable module state of `src/unnamed/part_000`, lines 35-41,
plus `clientConnected`, which records what the external transport
reports through `client.isConnected()` (read at lines 64, 115, 175,
207 and 211-213 of the source); it is owned by the transport, the
controller only reads it. -/
structure St where
  client : Bool
  clientConnected : Bool
  connectedToBroker : Bool
  esp32ConfirmedOnline : Bool
  watchdogArmed : Bool
deriving DecidableEq, Repr

/-- The effect of one `part_000` operation: new state, status-change
notifications, transport requests, and the console log lines a claim
depends on (only the degraded-publish warning and the
forced-confirmation refusal are recorded). -/
structure Eff where
  st : St
  notes : List Status
  reqs : List Req
  logs : List String
deriving DecidableEq, Repr

/-- `_updateAndNotifyStatus` of `src/unnamed/part_000`, lines 47-60:
assigns both flags and invokes the status callback. -/
def updateAndNotifyStatus (broker device : Bool) (msg : String) (s : St) : Eff :=
  ⟨{ s with connectedToBroker := broker, esp32ConfirmedOnline := device },
   [⟨broker, device, msg⟩], [], []⟩

/-- `isBrokerConnected` of `src/unnamed/part_000`, lines 63-65:
`connectedToBroker && client && client.isConnected()`. -/
def isBrokerConnected (s : St) : Bool :=
  s.connectedToBroker && s.client && s.clientConnected

/-- `isFullyConnected` of `src/unnamed/part_000`, lines 67-69. -/
def isFullyConnected (s : St) : Bool :=
  isBrokerConnected s && s.esp32ConfirmedOnline

/-- The `client.onConnectionLost` handler installed by `init` of
`src/unnamed/part_000`, lines 92-101: clears the device-ready timer,
then notifies (false, false, "MQTT Connection Lost") when
`errorCode !== 0` (abnormal loss) and (false, false,
"MQTT Disconnected") when `errorCode === 0` (deliberate
disconnect). -/
def onConnectionLost (errorCode : Nat) (s : St) : Eff :=
  let s1 : St := { s with watchdogArmed := false }
  if errorCode ≠ 0 then updateAndNotifyStatus false false "MQTT Connection Lost" s1
  else updateAndNotifyStatus false false "MQTT Disconnected" s1

/-- JavaScript `hay.includes(needle)`: `String.prototype.includes`,
expressed through `splitOn` (a non-empty needle occurs in `hay` iff
splitting on it yields more than one piece). -/
def jsIncludes (hay needle : String) : Bool :=
  (hay.splitOn needle).length != 1

/-- The `client.onMessageArrived` handler installed by `init` of
`src/unnamed/part_000`, lines 103-121: on the status topic the payload
goes to the data callback (no controller state changes); on the
device-ready topic a truthy payload whose lower-casing contains
"online" clears the timer and notifies (true, true,
"MQTT Device Online") when `connectedToBroker`, or — unusually — when
the flag is false but `client.isConnected()` is true; every other
payload on that topic is ignored. -/
def onMessageArrived (topic payload : String) (s : St) : Eff :=
  if topic = MQTT_STATUS_TOPIC then ⟨s, [], [], []⟩
  else if topic = MQTT_ESP32_READY_TOPIC then
    if payload ≠ "" && jsIncludes payload.toLower "online" then
      if s.connectedToBroker then
        updateAndNotifyStatus true true "MQTT Device Online" { s with watchdogArmed := false }
      else if s.client && s.clientConnected then
        updateAndNotifyStatus true true "MQTT Device Online" { s with watchdogArmed := false }
      else ⟨{ s with watchdogArmed := false }, [], [], []⟩
    else ⟨s, [], [], []⟩
  else ⟨s, [], [], []⟩

/-- `connect` of `src/unnamed/part_000`, lines 131-171.  After the two
guards it notifies "MQTT Connecting..." and then, at line 146,
evaluates the identifier `onMessageArrived` — which, like
`onConnectionLost`, `onConnectSuccess`, `onConnectFailure`,
`MQTT_USE_SSL` and `MQTT_DEVICE_READY_TOPIC` used at lines 146-160, is
declared nowhere in this module (the handlers of this variant are
anonymous closures assigned inside `init`).  Evaluating an undeclared
identifier throws a ReferenceError, and line 146 sits before the
try/catch (which only wraps `client.connect` at lines 165-170), so the
exception escapes `connect()` to the caller.  The second component
records the escaping exception, if any. -/
def connect (s : St) : Eff × Option String :=
  if s.connectedToBroker then (⟨s, [], [], []⟩, none)
  else if !s.client then (⟨s, [], [], []⟩, none)
  else
    (updateAndNotifyStatus false false "MQTT Connecting..." s,
     some "ReferenceError: onMessageArrived is not defined")

/-- `_startDeviceReadyCheckTimer` of `src/unnamed/part_000`, lines
192-202: cancel any pending timer and arm a fresh single-shot one. -/
def startDeviceReadyCheckTimer (s : St) : St :=
  { s with watchdogArmed := true }

/-- The body of the `setTimeout` callback of
`_startDeviceReadyCheckTimer`, `src/unnamed/part_000` lines 195-200:
only if still broker-connected and the device still unconfirmed does
it notify (true, false, "MQTT: Device Not Responding"); otherwise it
does nothing. -/
def deviceReadyTimeoutHandler (s : St) : Eff :=
  if s.connectedToBroker && !s.esp32ConfirmedOnline then
    updateAndNotifyStatus true false "MQTT: Device Not Responding" s
  else ⟨s, [], [], []⟩

/-- `disconnect` of `src/unnamed/part_000`, lines 204-226: always
clears the device-ready timer first.  When the client exists and the
transport reports connected, it unsubscribes from the status and
device-ready topics and calls `client.disconnect`, which (per the
source comment at line 213) triggers `onConnectionLost` with
`errorCode 0`; that callback is folded in synchronously here, with the
transport now reporting disconnected.  `teardownOk = false` models the
unsubscribe/disconnect sequence throwing, in which case the catch
block notifies (false, false, "MQTT Disconnect Error") (requests
issued before the throw are not tracked).  When the client is absent
or already disconnected it just notifies (false, false,
"MQTT Disconnected"). -/
def disconnect (teardownOk : Bool) (s : St) : Eff :=
  let s1 : St := { s with watchdogArmed := false }
  if s1.client && s1.clientConnected then
    if teardownOk then
      let e := onConnectionLost 0 { s1 with clientConnected := false }
      ⟨e.st, e.notes,
       [Req.unsubscribeReq MQTT_STATUS_TOPIC, Req.unsubscribeReq MQTT_ESP32_READY_TOPIC,
        Req.disconnectReq], e.logs⟩
    else
      let e := updateAndNotifyStatus false false "MQTT Disconnect Error" s1
      ⟨e.st, e.notes, [], e.logs⟩
  else
    let e := updateAndNotifyStatus false false "MQTT Disconnected" s1
    ⟨e.st, e.notes, [], e.logs⟩

/-- The degraded-publish warning logged by `publish` of
`src/unnamed/part_000`, line 234. -/
def publishWarning : String :=
  "Warning: Publishing command, but ESP32 device is not confirmed online. Message might be queued or lost."

/-- `publish` of `src/unnamed/part_000`, lines 228-249: refuses
(returns false, no transport traffic, no state change) when
`isBrokerConnected()` is false; otherwise logs the best-effort warning
when not fully connected, serializes the command (the `payload`
argument here is the already-serialized JSON string) and attempts
exactly one `client.send` to the command topic, returning whether the
send succeeded (`sendOk`). -/
def publish (sendOk : Bool) (payload : String) (s : St) : Eff × Bool :=
  if !isBrokerConnected s then (⟨s, [], [], []⟩, false)
  else
    let warnLogs : List String := if !isFullyConnected s then [publishWarning] else []
    (⟨s, [], [Req.sendReq MQTT_COMMAND_TOPIC payload], warnLogs⟩, sendOk)

/-- `forceDeviceOnlineConfirmation` of `src/unnamed/part_000`, lines
251-259: when broker-connected and the device unconfirmed, clears the
timer and notifies (true, true, "MQTT Device Online (Confirmed Alt)");
when not broker-connected it only logs a refusal. -/
def forceDeviceOnlineConfirmation (s : St) : Eff :=
  if isBrokerConnected s && !s.esp32ConfirmedOnline then
    updateAndNotifyStatus true true "MQTT Device Online (Confirmed Alt)"
      { s with watchdogArmed := false }
  else if !isBrokerConnected s then
    ⟨s, [], [], ["forceDeviceOnlineConfirmation called, but not even connected to broker."]⟩
  else ⟨s, [], [], []⟩

end P0

/-- The `Js6` state right after a successful `init()`: a client exists,
nothing is connected, no timer pending. -/
def c2StateInit : Js6.St :=
  ⟨true, false, false, false⟩

/-- A fully connected `Js6` state (client, broker and device flags set,
watchdog already disarmed by the earlier confirmation). -/
def c4FullState : Js6.St :=
  ⟨true, true, true, false⟩

/-- A `P0` state that is broker-connected but with the device not yet
confirmed. -/
def c3BrokerOnlyState : P0.St :=
  ⟨true, true, true, false, false⟩

/-- A `P0` state awaiting the device with the watchdog armed. -/
def c5FireState : P0.St :=
  ⟨true, true, true, false, true⟩

/-- A fully connected `P0` state with the watchdog armed. -/
def c7FullState : P0.St :=
  ⟨true, true, true, true, true⟩

/-- The `P0` state right after a successful `init()`: a client exists,
nothing is connected. -/
def c8InitState : P0.St :=
  ⟨true, false, false, false, false⟩

/-- A `P0` state that is broker-connected, device unconfirmed,
watchdog armed. -/
def c9AwaitingState : P0.St :=
  ⟨true, true, true, false, true⟩

/-- Helper for C1: every single `Js6.step` transition preserves the
flag invariant, because every `_updateAndNotifyStatus` call site of
`src/js6.js` passes `device = true` only together with
`broker = true`. -/
theorem flagInv_step (e : Js6.Ev) (s : Js6.St) (h : Js6.FlagInv s) :
    Js6.FlagInv (Js6.step e s) := by
  cases e <;>
    simp only [Js6.step, Js6.init, Js6.connect, Js6.disconnect, Js6.publish,
      Js6.onConnectSuccess, Js6.onConnectFailure, Js6.onConnectionLost,
      Js6.onMessageArrived, Js6.deviceReadyTimeoutHandler,
      Js6.forceDeviceOnlineConfirmation, Js6.updateAndNotifyStatus,
      Js6.isBrokerConnected, Js6.isFullyConnected, Js6.FlagInv] at h ⊢ <;>
    (repeat' split) <;> simp_all


/-- C1: for every reachable state of the js6.js controller,
deviceConfirmed (esp32ConfirmedOnline) = true implies brokerConnected
(connectedToBroker) = true, and after any further transition a cleared
broker flag comes with a cleared device flag — every transition that
sets brokerConnected to false sets deviceConfirmed to false in the
same transition. -/
theorem c1_device_confirmed_implies_broker (s : Js6.St) (e : Js6.Ev)
    (h : Js6.Reachable s) :
    (s.esp32ConfirmedOnline = true → s.connectedToBroker = true) ∧
    ((Js6.step e s).connectedToBroker = false →
      (Js6.step e s).esp32ConfirmedOnline = false) := by
  have inv : ∀ t, Js6.Reachable t → Js6.FlagInv t := by
    intro t ht
    induction ht with
    | base => intro hx; exact absurd hx (by decide)
    | next e' hs ih => exact flagInv_step e' _ ih
  refine ⟨inv s h, ?_⟩
  have h2 := flagInv_step e s (inv s h)
  intro hb
  cases hq : (Js6.step e s).esp32ConfirmedOnline
  · rfl
  · rw [h2 hq] at hb
    exact absurd hb (by decide)

/-- C1 witness: the invariant instantiated at the (reachable) initial
state and a connection-lost transition from it. -/
theorem c1_device_confirmed_implies_broker_witness :
    (Js6.initialSt.esp32ConfirmedOnline = true →
      Js6.initialSt.connectedToBroker = true) ∧
    ((Js6.step Js6.Ev.evConnectionLost Js6.initialSt).connectedToBroker = false →
      (Js6.step Js6.Ev.evConnectionLost Js6.initialSt).esp32ConfirmedOnline = false) :=
  c1_device_confirmed_implies_broker Js6.initialSt Js6.Ev.evConnectionLost Js6.Reachable.base

/-- C2: evaluation at the failing input.  From the freshly initialized
js6.js state, a first connect() issues one transport connect request
and leaves connectedToBroker = false (the representation of the
CONNECTING phase, set by the "MQTT Connecting..." update); a second
connect() issued before any transport callback therefore passes the
connectedToBroker guard again and issues a second transport connect
request.  The claimed no-op covers only states where connectedToBroker
is already true, not the CONNECTING phase, even though the guard logs
"Already connected or connecting." when it fires. -/
theorem c2_double_connect_two_requests :
    (Js6.connect true c2StateInit).reqs = [Req.connectReq] ∧
    (Js6.connect true c2StateInit).st.connectedToBroker = false ∧
    (Js6.connect true (Js6.connect true c2StateInit).st).reqs = [Req.connectReq] :=
  ⟨rfl, rfl, rfl⟩

/-- C3: publish gating of the part_000 variant (the variant whose
publish behaviour the spec adopts).  Reading the brokerConnected
precondition through the controller's own isBrokerConnected() query:
publish fails with no transport send and no state change exactly when
isBrokerConnected is false; publish never changes controller state or
emits a status notification; when isBrokerConnected is true it
attempts exactly one send to the command topic, returns the send
outcome (false on a transport send failure), and when the device is
unconfirmed it logs the best-effort delivery warning rather than
silently refusing. -/
theorem c3_publish_gating (s : P0.St) (p : String) (sendOk : Bool) :
    (((P0.publish sendOk p s).2 = false ∧ (P0.publish sendOk p s).1.reqs = []) ↔
      P0.isBrokerConnected s = false) ∧
    (P0.publish sendOk p s).1.st = s ∧
    (P0.publish sendOk p s).1.notes = [] ∧
    (P0.isBrokerConnected s = true →
      (P0.publish sendOk p s).1.reqs = [Req.sendReq P0.MQTT_COMMAND_TOPIC p] ∧
      (P0.publish sendOk p s).2 = sendOk ∧
      (s.esp32ConfirmedOnline = false →
        (P0.publish sendOk p s).1.logs = [P0.publishWarning])) := by
  cases hb : P0.isBrokerConnected s with
  | false =>
      simp [P0.publish, hb]
  | true =>
      simp [P0.publish, hb, P0.isFullyConnected]

/-- C3 witness: the gating theorem applied at a concrete
broker-connected, device-unconfirmed state with payload "cmd" and a
succeeding send. -/
theorem c3_publish_gating_witness :
    (P0.publish true "cmd" c3BrokerOnlyState).1.reqs =
      [Req.sendReq P0.MQTT_COMMAND_TOPIC "cmd"] ∧
    (P0.publish true "cmd" c3BrokerOnlyState).2 = true ∧
    (P0.publish true "cmd" c3BrokerOnlyState).1.logs = [P0.publishWarning] ∧
    (P0.publish true "cmd" c3BrokerOnlyState).1.st = c3BrokerOnlyState :=
  ⟨((c3_publish_gating c3BrokerOnlyState "cmd" true).2.2.2 rfl).1,
   ((c3_publish_gating c3BrokerOnlyState "cmd" true).2.2.2 rfl).2.1,
   ((c3_publish_gating c3BrokerOnlyState "cmd" true).2.2.2 rfl).2.2 rfl,
   (c3_publish_gating c3BrokerOnlyState "cmd" true).2.1⟩

/-- C4 counterexample: a device-ready message with payload "offline"
delivered to the js6.js controller while deviceConfirmed was true does
clear deviceConfirmed and notify "Device Offline", but the watchdog is
NOT re-armed — it stays disarmed — refuting the claimed re-arming of
the watchdog when the message arrives while deviceConfirmed was
true. -/
theorem c4_counterexample_no_rearm :
    c4FullState.esp32ConfirmedOnline = true ∧
    c4FullState.watchdogArmed = false ∧
    (Js6.onMessageArrived Js6.MQTT_DEVICE_READY_TOPIC "offline"
        c4FullState).st.esp32ConfirmedOnline = false ∧
    (Js6.onMessageArrived Js6.MQTT_DEVICE_READY_TOPIC "offline" c4FullState).notes =
      [⟨true, false, "Device Offline"⟩] ∧
    (Js6.onMessageArrived Js6.MQTT_DEVICE_READY_TOPIC "offline"
        c4FullState).st.watchdogArmed = false := by
  decide

/-- C4 (amended): for every message delivered on the device-ready
channel of the js6.js controller, a payload exactly equal to "online"
(and no other payload) sets deviceConfirmed, disarms the watchdog and
notifies "MQTT Device Online"; any other payload results in
deviceConfirmed = false and a "Device Offline" notification, and the
watchdog is left exactly as it was — it is never re-armed by the
message handler. -/
theorem c4_amended_ready_message (s : Js6.St) (p : String) :
    (p = "online" →
      Js6.onMessageArrived Js6.MQTT_DEVICE_READY_TOPIC p s =
        ⟨⟨s.client, true, true, false⟩,
         [⟨true, true, "MQTT Device Online"⟩], []⟩) ∧
    (p ≠ "online" →
      (Js6.onMessageArrived Js6.MQTT_DEVICE_READY_TOPIC p s).st =
        ⟨s.client, true, false, s.watchdogArmed⟩ ∧
      (Js6.onMessageArrived Js6.MQTT_DEVICE_READY_TOPIC p s).notes =
        [⟨true, false, "Device Offline"⟩] ∧
      (Js6.onMessageArrived Js6.MQTT_DEVICE_READY_TOPIC p s).st.watchdogArmed =
        s.watchdogArmed) := by
  constructor
  · intro hp
    subst hp
    simp [Js6.onMessageArrived, Js6.updateAndNotifyStatus]
  · intro hp
    simp [Js6.onMessageArrived, Js6.updateAndNotifyStatus, hp]

/-- C4 witness for the amended claim: instantiated at the concrete
fully-connected state and the payload "offline". -/
theorem c4_amended_ready_message_witness :
    (Js6.onMessageArrived Js6.MQTT_DEVICE_READY_TOPIC "offline" c4FullState).st =
      ⟨c4FullState.client, true, false, c4FullState.watchdogArmed⟩ ∧
    (Js6.onMessageArrived Js6.MQTT_DEVICE_READY_TOPIC "offline" c4FullState).notes =
      [⟨true, false, "Device Offline"⟩] ∧
    (Js6.onMessageArrived Js6.MQTT_DEVICE_READY_TOPIC "offline"
        c4FullState).st.watchdogArmed = c4FullState.watchdogArmed :=
  (c4_amended_ready_message c4FullState "offline").2 (by decide)

/-- C5: the part_000 device-ready watchdog handler.  When the timer
fires while the broker is connected and the device still unconfirmed,
the status callback receives (true, false,
"MQTT: Device Not Responding") and the flags are unchanged; when
deviceConfirmed is already true at fire time the guard suppresses the
timeout entirely — no state change, no notification, no transport
traffic. -/
theorem c5_watchdog_fire (s : P0.St) :
    (s.connectedToBroker = true → s.esp32ConfirmedOnline = false →
      (P0.deviceReadyTimeoutHandler s).st = s ∧
      (P0.deviceReadyTimeoutHandler s).notes =
        [⟨true, false, "MQTT: Device Not Responding"⟩] ∧
      (P0.deviceReadyTimeoutHandler s).reqs = []) ∧
    (s.esp32ConfirmedOnline = true →
      P0.deviceReadyTimeoutHandler s = ⟨s, [], [], []⟩) := by
  constructor
  · intro hb hd
    obtain ⟨c, cc, b, d, w⟩ := s
    simp_all [P0.deviceReadyTimeoutHandler, P0.updateAndNotifyStatus]
  · intro hd
    simp [P0.deviceReadyTimeoutHandler, hd]

/-- C5 witness: the handler fired at a concrete broker-connected,
device-unconfirmed state. -/
theorem c5_watchdog_fire_witness :
    (P0.deviceReadyTimeoutHandler c5FireState).st = c5FireState ∧
    (P0.deviceReadyTimeoutHandler c5FireState).notes =
      [⟨true, false, "MQTT: Device Not Responding"⟩] ∧
    (P0.deviceReadyTimeoutHandler c5FireState).reqs = [] :=
  (c5_watchdog_fire c5FireState).1 rfl rfl

/-- C6: the part_000 connection-lost handler, from any state and for
any transport error code: the watchdog is disarmed and both flags are
cleared in the same transition, and the notification message is
"MQTT Connection Lost" for an abnormal loss (errorCode different from
zero) and "MQTT Disconnected" for the deliberate loss a disconnect()
triggers (errorCode zero). -/
theorem c6_connection_lost (s : P0.St) (errorCode : Nat) :
    (P0.onConnectionLost errorCode s).st.connectedToBroker = false ∧
    (P0.onConnectionLost errorCode s).st.esp32ConfirmedOnline = false ∧
    (P0.onConnectionLost errorCode s).st.watchdogArmed = false ∧
    (P0.onConnectionLost errorCode s).notes =
      [⟨false, false,
        if errorCode ≠ 0 then "MQTT Connection Lost" else "MQTT Disconnected"⟩] := by
  by_cases h : errorCode = 0 <;>
    simp [P0.onConnectionLost, P0.updateAndNotifyStatus, h]

/-- C7: disconnect() of the part_000 variant, invoked in any state:
the result always has both flags false and the watchdog disarmed.
When the client exists and the transport reports connected and the
teardown sequence does not throw, it unsubscribes from the status and
device-ready channels, requests transport teardown, and the status
callback receives (false, false, "MQTT Disconnected") (via the
connection-lost callback the deliberate teardown triggers); when
invoked while not transport-connected the same (false, false,
"MQTT Disconnected") notification is emitted directly. -/
theorem c7_disconnect_teardown (s : P0.St) (teardownOk : Bool) :
    (P0.disconnect teardownOk s).st.connectedToBroker = false ∧
    (P0.disconnect teardownOk s).st.esp32ConfirmedOnline = false ∧
    (P0.disconnect teardownOk s).st.watchdogArmed = false ∧
    (teardownOk = true → s.client = true → s.clientConnected = true →
      (P0.disconnect teardownOk s).reqs =
        [Req.unsubscribeReq P0.MQTT_STATUS_TOPIC,
         Req.unsubscribeReq P0.MQTT_ESP32_READY_TOPIC, Req.disconnectReq] ∧
      (P0.disconnect teardownOk s).notes = [⟨false, false, "MQTT Disconnected"⟩]) ∧
    ((s.client && s.clientConnected) = false →
      (P0.disconnect teardownOk s).notes = [⟨false, false, "MQTT Disconnected"⟩]) := by
  obtain ⟨c, cc, b, d, w⟩ := s
  cases teardownOk <;> cases c <;> cases cc <;>
    simp [P0.disconnect, P0.onConnectionLost, P0.updateAndNotifyStatus]

/-- C7 witness: disconnect() applied at a concrete fully-connected
state with a non-throwing teardown. -/
theorem c7_disconnect_teardown_witness :
    (P0.disconnect true c7FullState).st.connectedToBroker = false ∧
    (P0.disconnect true c7FullState).st.esp32ConfirmedOnline = false ∧
    (P0.disconnect true c7FullState).st.watchdogArmed = false ∧
    (P0.disconnect true c7FullState).reqs =
      [Req.unsubscribeReq P0.MQTT_STATUS_TOPIC,
       Req.unsubscribeReq P0.MQTT_ESP32_READY_TOPIC, Req.disconnectReq] ∧
    (P0.disconnect true c7FullState).notes = [⟨false, false, "MQTT Disconnected"⟩] :=
  ⟨(c7_disconnect_teardown c7FullState true).1,
   (c7_disconnect_teardown c7FullState true).2.1,
   (c7_disconnect_teardown c7FullState true).2.2.1,
   ((c7_disconnect_teardown c7FullState true).2.2.2.1 rfl rfl rfl).1,
   ((c7_disconnect_teardown c7FullState true).2.2.2.1 rfl rfl rfl).2⟩

/-- C8: evaluation at the failing input.  In the part_000 variant,
connect() called after a successful init() (client present, broker
flag false) first updates state and notifies
(false, false, "MQTT Connecting...") and then throws a ReferenceError
across the host boundary: line 146 evaluates the undeclared identifier
onMessageArrived (this variant defines its handlers only as anonymous
closures inside init(), and lines 146-160 also reference the
undeclared onConnectionLost, onConnectSuccess, onConnectFailure,
MQTT_USE_SSL and MQTT_DEVICE_READY_TOPIC), and this happens before the
try/catch that only wraps client.connect.  This contradicts the
nothing-is-thrown propagation policy — and the code's own comments
("FIX APPLIED HERE", "avoids scope/typo issues") show the intent
matches the policy, so the code is the slip.  The js6.js variant
defines all of these and is not affected. -/
theorem c8_connect_throws :
    (P0.connect c8InitState).2 =
      some "ReferenceError: onMessageArrived is not defined" ∧
    (P0.connect c8InitState).1.notes = [⟨false, false, "MQTT Connecting..."⟩] ∧
    (P0.connect c8InitState).1.reqs = [] :=
  ⟨rfl, rfl, rfl⟩

/-- C9: forceDeviceOnlineConfirmation() of the part_000 variant, in
any state where the controller's isBrokerConnected() query is true and
deviceConfirmed is false: it disarms the watchdog, makes the
controller fully connected (deviceConfirmed = true), and the status
callback receives (true, true, "MQTT Device Online (Confirmed Alt)"). -/
theorem c9_force_confirmation (s : P0.St)
    (hb : P0.isBrokerConnected s = true) (hd : s.esp32ConfirmedOnline = false) :
    (P0.forceDeviceOnlineConfirmation s).st.watchdogArmed = false ∧
    (P0.forceDeviceOnlineConfirmation s).st.esp32ConfirmedOnline = true ∧
    P0.isFullyConnected (P0.forceDeviceOnlineConfirmation s).st = true ∧
    (P0.forceDeviceOnlineConfirmation s).notes =
      [⟨true, true, "MQTT Device Online (Confirmed Alt)"⟩] := by
  obtain ⟨c, cc, b, d, w⟩ := s
  simp_all [P0.forceDeviceOnlineConfirmation, P0.updateAndNotifyStatus,
    P0.isBrokerConnected, P0.isFullyConnected]

/-- C9 witness: the forced confirmation applied at a concrete
broker-connected, device-unconfirmed state with the watchdog armed. -/
theorem c9_force_confirmation_witness :
    (P0.forceDeviceOnlineConfirmation c9AwaitingState).st.watchdogArmed = false ∧
    (P0.forceDeviceOnlineConfirmation c9AwaitingState).st.esp32ConfirmedOnline = true ∧
    P0.isFullyConnected (P0.forceDeviceOnlineConfirmation c9AwaitingState).st = true ∧
    (P0.forceDeviceOnlineConfirmation c9AwaitingState).notes =
      [⟨true, true, "MQTT Device Online (Confirmed Alt)"⟩] :=
  c9_force_confirmation c9AwaitingState rfl rfl

/-- C10: connect() of the js6.js controller invoked when no transport
client exists (init() never ran or failed) is a silent no-op at the
public interface: no transport request, no state change, no
status-change notification (only a console error line, which is not
part of the public interface). -/
theorem c10_connect_without_client (s : Js6.St) (connectOk : Bool)
    (h : s.client = false) :
    Js6.connect connectOk s = ⟨s, [], []⟩ := by
  simp [Js6.connect, h, ite_self]

/-- C10 witness: connect() at the never-initialized initial state. -/
theorem c10_connect_without_client_witness :
    Js6.connect true Js6.initialSt = ⟨Js6.initialSt, [], []⟩ :=
  c10_connect_without_client Js6.initialSt true rfl
